import Mathlib

/-!
Shallow embedding of the Canary web client's session/authentication core and
its API gateway layer (auth-service.js, AuthContext.jsx, news-api.js,
MainChatArea-api.js, AIModal.jsx), with theorems checking the specified
behaviour.

Modelling conventions:
* `localStorage` is a two-slot record `Storage` holding the keys
  `authToken` and `user`; `getItem` returning `null` is `none`.
* JS string truthiness matters at several guards: the empty string is falsy,
  so guards of the form `if (!token)` are modelled as a test against `""`
  in addition to the `none` case.
* The network is abstracted by `NetBehavior`: a request either resolves at
  some time with an `HttpResponse`, rejects at some time with a non-abort
  error message, or never settles.  Response bodies are pre-parsed values
  (the `response.json()` step is folded into the body type).
* `JSON.parse(atob(token.split('.')[1]))` of `isAuthenticated` is abstracted
  by a `decode` function parameter returning `none` when any step throws.
  In the real client decoding the payload of the empty-string token always
  fails (`"".split('.')[1]` is `undefined`, and `atob` of its string
  coercion throws), so realisable decode functions satisfy `decode "" = none`;
  theorems that need this realisability state it as a hypothesis.
* JS numbers occurring in the expiry comparison (`payload.exp`,
  `Date.now() / 1000`) are modelled as rationals.
-/

/-- The two durable localStorage slots used by the client:
key `authToken` and key `user` (JSON-serialised profile). -/
structure Storage where
  authToken : Option String
  user : Option String
deriving Repr, DecidableEq

/-- Result of decoding a JWT payload segment: a JSON object which may or may
not carry a numeric `exp` claim (seconds since epoch). -/
structure JwtPayload where
  exp : Option ℚ
deriving Repr, DecidableEq

/-- An HTTP response as seen after `response.json()`: ok flag, status code,
and pre-parsed body. -/
structure HttpResponse (α : Type) where
  ok : Bool
  status : Nat
  body : α
deriving Repr, DecidableEq

/-- Behaviour of one network request: it resolves with a response at time `t`
milliseconds, rejects at time `t` with a (non-abort) error message, or never
settles. -/
inductive NetBehavior (α : Type) where
  | arrives : Nat → HttpResponse α → NetBehavior α
  | failsAt : Nat → String → NetBehavior α
  | hangs : NetBehavior α
deriving Repr, DecidableEq

/-- Plain `fetch` with no client-side timer: `none` means the awaiting caller
is suspended forever; otherwise the settled promise is returned. -/
def fetchPlain {α : Type} (b : NetBehavior α) : Option (Except String (HttpResponse α)) :=
  match b with
  | .arrives _ r => some (.ok r)
  | .failsAt _ msg => some (.error msg)
  | .hangs => none

/-- JS `a || b` on an optional error-message field: `none`, and the falsy
empty string, fall through to the default. -/
def jsOr (o : Option String) (d : String) : String :=
  match o with
  | some m => if m = "" then d else m
  | none => d

/-- Both `removeItem('authToken')` and `removeItem('user')`, the clearing
step shared by `logoutUser`, `isAuthenticated` and `getUserProfile`. -/
def clearAuthStorage (s : Storage) : Storage :=
  { s with authToken := none, user := none }

/-- Body of a successful or failed auth response: optional server `error`
message, optional `token`, and the serialised `user` object
(`JSON.stringify(data.user)`). -/
structure AuthBody where
  error : Option String
  token : Option String
  userJson : String
deriving Repr, DecidableEq

/-- auth-service.js `registerUser`: POST `/auth/register`; on a non-ok
response throws the server's error message or `Registration failed`; on an
ok response stores token and user together when `data.token` is truthy.
Returns the settled result (`none` if the fetch never settles) paired with
the resulting storage. -/
def registerUser (b : NetBehavior AuthBody) (s : Storage) :
    Option (Except String AuthBody) × Storage :=
  match fetchPlain b with
  | none => (none, s)
  | some (.error msg) => (some (.error msg), s)
  | some (.ok resp) =>
    if !resp.ok then
      (some (.error (jsOr resp.body.error "Registration failed")), s)
    else
      match resp.body.token with
      | some t =>
        if t = "" then (some (.ok resp.body), s)
        else (some (.ok resp.body), { s with authToken := some t, user := some resp.body.userJson })
      | none => (some (.ok resp.body), s)

/-- auth-service.js `loginUser`: POST `/auth/login`; identical storage
behaviour to `registerUser`, with default message `Login failed`. -/
def loginUser (b : NetBehavior AuthBody) (s : Storage) :
    Option (Except String AuthBody) × Storage :=
  match fetchPlain b with
  | none => (none, s)
  | some (.error msg) => (some (.error msg), s)
  | some (.ok resp) =>
    if !resp.ok then
      (some (.error (jsOr resp.body.error "Login failed")), s)
    else
      match resp.body.token with
      | some t =>
        if t = "" then (some (.ok resp.body), s)
        else (some (.ok resp.body), { s with authToken := some t, user := some resp.body.userJson })
      | none => (some (.ok resp.body), s)

/-- Opaque user/profile objects (their JSON content is irrelevant to the
session logic); kept as their serialised form. -/
def UserObj := String
deriving instance Repr, DecidableEq for UserObj

/-- auth-service.js `getUserProfile`: the `if (!token)` guard throws
`No authentication token` before any request when the stored token is
absent or the falsy empty string; otherwise GET `/auth/profile`; on HTTP
401 clears both storage keys and throws `Session expired`; on any other
non-ok status throws `Failed to fetch profile` leaving storage
untouched. -/
def getUserProfile (b : NetBehavior UserObj) (s : Storage) :
    Option (Except String UserObj) × Storage :=
  match s.authToken with
  | none => (some (.error "No authentication token"), s)
  | some token =>
    if token = "" then (some (.error "No authentication token"), s)
    else
      match fetchPlain b with
      | none => (none, s)
      | some (.error msg) => (some (.error msg), s)
      | some (.ok resp) =>
        if !resp.ok then
          if resp.status = 401 then
            (some (.error "Session expired"), clearAuthStorage s)
          else
            (some (.error "Failed to fetch profile"), s)
        else
          (some (.ok resp.body), s)

/-- auth-service.js `logoutUser`: removes both storage keys. -/
def logoutUser (s : Storage) : Storage :=
  { s with authToken := none, user := none }

/-- auth-service.js `getAuthToken`: reads the `authToken` key. -/
def getAuthToken (s : Storage) : Option String :=
  s.authToken

/-- auth-service.js `getStoredUser`: reads the `user` key and JSON-parses it
when truthy; `parseUser` abstracts `JSON.parse`, `none` covering both a
parse exception and a falsy parse result (either way the caller's
`if (storedUser)` block is skipped, see `initializeAuth`). -/
def getStoredUser (parseUser : String → Option UserObj) (s : Storage) : Option UserObj :=
  match s.user with
  | none => none
  | some ustr => if ustr = "" then none else parseUser ustr

/-- JS comparison `payload.exp < currentTime`: `undefined` (absent `exp`)
compares as false. -/
def expLt (exp : Option ℚ) (now : ℚ) : Bool :=
  match exp with
  | some e => decide (e < now)
  | none => false

/-- auth-service.js `isAuthenticated`: no token (or the falsy empty string)
gives false without touching storage; then the token's payload is decoded
(`decode` abstracts `JSON.parse(atob(token.split('.')[1]))`, `none` = the
`try` block threw): decode failure clears both keys and gives false; a
payload with `exp` strictly below `now` clears both keys and gives false;
otherwise true with storage untouched.  Returns the boolean paired with the
resulting storage. -/
def isAuthenticated (decode : String → Option JwtPayload) (now : ℚ) (s : Storage) :
    Bool × Storage :=
  match s.authToken with
  | none => (false, s)
  | some token =>
    if token = "" then (false, s)
    else
      match decode token with
      | none => (false, clearAuthStorage s)
      | some payload =>
        if expLt payload.exp now then (false, clearAuthStorage s)
        else (true, s)

/-- React state owned by AuthContext.jsx's provider: the current user (null
= unauthenticated) and the loading flag. -/
structure AuthState where
  user : Option UserObj
  loading : Bool
deriving Repr, DecidableEq

/-- AuthContext.jsx `initializeAuth`: runs `isAuthenticated()`; when true,
reads the stored user; when a user is present, sets it optimistically then
verifies via `getUserProfile()`: on success the verified profile replaces
the user, on any thrown error `logout()` runs (clearing storage and the
user).  Every settled path ends with `setLoading(false)` (the `finally`);
if the profile fetch never settles the function stays suspended, returning
the state as it stands at the suspension point (loading still as passed
in).  Returns final storage paired with final React state. -/
def initializeAuth (decode : String → Option JwtPayload)
    (parseUser : String → Option UserObj) (now : ℚ)
    (b : NetBehavior UserObj) (s : Storage) (st : AuthState) :
    Storage × AuthState :=
  let r := isAuthenticated decode now s
  if r.1 then
    match getStoredUser parseUser r.2 with
    | none => (r.2, { st with loading := false })
    | some u =>
      let st1 : AuthState := { st with user := some u }
      match getUserProfile b r.2 with
      | (none, s2) => (s2, st1)
      | (some (Except.ok profile), s2) =>
        (s2, { st1 with user := some profile, loading := false })
      | (some (Except.error _), s2) =>
        (logoutUser s2, { st1 with user := none, loading := false })
  else (r.2, { st with loading := false })

/-- Error taxonomy of the news/chat API layer: the distinct timeout error
thrown by `fetchWithTimeout` on abort (`Request timed out. Please try
again.`), the per-operation generic failure message on a non-ok status, and
a propagated non-abort network rejection. -/
inductive ApiError where
  | requestTimedOut : ApiError
  | requestFailed : String → ApiError
  | netError : String → ApiError
deriving Repr, DecidableEq

/-- news-api.js `fetchWithTimeout`: starts a timer that aborts the request
after `timeoutMs` milliseconds (the source's default argument is 30000,
applied at each call site below); a response or rejection that settles
within the window is passed through (a rejection as `netError`), otherwise
the abort surfaces as `requestTimedOut`. -/
def fetchWithTimeout {α : Type} (b : NetBehavior α) (timeoutMs : Nat) :
    Except ApiError (HttpResponse α) :=
  match b with
  | .arrives t r => if t ≤ timeoutMs then .ok r else .error .requestTimedOut
  | .failsAt t msg => if t ≤ timeoutMs then .error (.netError msg) else .error .requestTimedOut
  | .hangs => .error .requestTimedOut

/-- Whether a request behaviour settles within `timeoutMs` milliseconds. -/
def resolvesWithin {α : Type} (b : NetBehavior α) (timeoutMs : Nat) : Bool :=
  match b with
  | .arrives t _ => t ≤ timeoutMs
  | .failsAt t _ => t ≤ timeoutMs
  | .hangs => false

/-- news-api.js `getNewsFeed`: GET `/news/feed` through `fetchWithTimeout`
with an explicit 35000 ms timeout; a non-ok response throws
`Failed to fetch news feed`. -/
def getNewsFeed {α : Type} (b : NetBehavior α) : Except ApiError α :=
  match fetchWithTimeout b 35000 with
  | .error e => .error e
  | .ok r => if !r.ok then .error (.requestFailed "Failed to fetch news feed") else .ok r.body

/-- news-api.js `getUrgentNews`: GET `/news/urgent` through
`fetchWithTimeout` with an explicit 35000 ms timeout. -/
def getUrgentNews {α : Type} (b : NetBehavior α) : Except ApiError α :=
  match fetchWithTimeout b 35000 with
  | .error e => .error e
  | .ok r => if !r.ok then .error (.requestFailed "Failed to fetch urgent news") else .ok r.body

/-- news-api.js `getUserPreferences`: GET `/news/preferences` through
`fetchWithTimeout` with the default 30000 ms timeout. -/
def getUserPreferences {α : Type} (b : NetBehavior α) : Except ApiError α :=
  match fetchWithTimeout b 30000 with
  | .error e => .error e
  | .ok r => if !r.ok then .error (.requestFailed "Failed to fetch user preferences") else .ok r.body

/-- news-api.js `updateUserPreferences`: POST `/news/preferences` through
`fetchWithTimeout` with the default 30000 ms timeout. -/
def updateUserPreferences {α : Type} (_preferences : String) (b : NetBehavior α) :
    Except ApiError α :=
  match fetchWithTimeout b 30000 with
  | .error e => .error e
  | .ok r => if !r.ok then .error (.requestFailed "Failed to update user preferences") else .ok r.body

/-- news-api.js `addMonitoringTopic`: POST `/news/monitor` through
`fetchWithTimeout` with the default 30000 ms timeout. -/
def addMonitoringTopic {α : Type} (_topic : String) (b : NetBehavior α) :
    Except ApiError α :=
  match fetchWithTimeout b 30000 with
  | .error e => .error e
  | .ok r => if !r.ok then .error (.requestFailed "Failed to add monitoring topic") else .ok r.body

/-- news-api.js `removeMonitoringTopic`: DELETE `/news/monitor/:topic`
(topic percent-encoded) through `fetchWithTimeout` with the default
30000 ms timeout. -/
def removeMonitoringTopic {α : Type} (_topic : String) (b : NetBehavior α) :
    Except ApiError α :=
  match fetchWithTimeout b 30000 with
  | .error e => .error e
  | .ok r => if !r.ok then .error (.requestFailed "Failed to remove monitoring topic") else .ok r.body

/-- MainChatArea-api.js `getAIMemory`: GET `/ai/memory` with plain `fetch`
(no client-side timer); `none` = the awaiting caller stays suspended. -/
def getAIMemory {α : Type} (b : NetBehavior α) : Option (Except ApiError α) :=
  match fetchPlain b with
  | none => none
  | some (.error msg) => some (.error (.netError msg))
  | some (.ok r) =>
    some (if !r.ok then .error (.requestFailed "Failed to fetch AI memory") else .ok r.body)

/-- MainChatArea-api.js `createNewChat`: POST `/chats` with plain `fetch`
(no client-side timer); the title defaults to `New Chat` at the source's
parameter list. -/
def createNewChat {α : Type} (_title : String) (b : NetBehavior α) :
    Option (Except ApiError α) :=
  match fetchPlain b with
  | none => none
  | some (.error msg) => some (.error (.netError msg))
  | some (.ok r) =>
    some (if !r.ok then .error (.requestFailed "Failed to create new chat") else .ok r.body)

/-- MainChatArea-api.js `getAllChats`: GET `/chats` with plain `fetch`. -/
def getAllChats {α : Type} (b : NetBehavior α) : Option (Except ApiError α) :=
  match fetchPlain b with
  | none => none
  | some (.error msg) => some (.error (.netError msg))
  | some (.ok r) =>
    some (if !r.ok then .error (.requestFailed "Failed to fetch chats") else .ok r.body)

/-- MainChatArea-api.js `getChatById`: GET `/chats/:id` with plain `fetch`. -/
def getChatById {α : Type} (_chatId : String) (b : NetBehavior α) :
    Option (Except ApiError α) :=
  match fetchPlain b with
  | none => none
  | some (.error msg) => some (.error (.netError msg))
  | some (.ok r) =>
    some (if !r.ok then .error (.requestFailed "Failed to fetch chat") else .ok r.body)

/-- MainChatArea-api.js `saveMessage`: POST `/chats/:id/messages` with plain
`fetch`; the resolved body is the assistant reply data. -/
def saveMessage {α : Type} (_chatId _content : String) (b : NetBehavior α) :
    Option (Except ApiError α) :=
  match fetchPlain b with
  | none => none
  | some (.error msg) => some (.error (.netError msg))
  | some (.ok r) =>
    some (if !r.ok then .error (.requestFailed "Failed to save message or get AI response")
          else .ok r.body)

/-- A chat as listed in the sidebar (AIModal.jsx): only its id and title are
consulted by the handlers. -/
structure Chat where
  chatId : String
  title : String
deriving Repr, DecidableEq

/-- A chat message as held in AIModal.jsx's `messages` state. -/
structure ChatMessage where
  id : String
  content : String
  role : String
  timestamp : String
  message_type : String
deriving Repr, DecidableEq

/-- React state of AIModal.jsx consulted or written by the chat handlers. -/
structure ModalState where
  activeView : String
  chats : List Chat
  currentChatId : Option String
  messages : List ChatMessage
  isNewChat : Bool
  loadingMessages : Bool
deriving Repr, DecidableEq

/-- JS falsiness of a nullable chat-id string (`if (!chatId)`): null or the
empty string. -/
def jsFalsyStr (o : Option String) : Bool :=
  match o with
  | none => true
  | some s => s = ""

/-- AIModal.jsx `handleCreateNewChat`: `res` is the settled promise of
`createNewChat()`.  On success the new chat is prepended (dropping any
previous entry with the same id), selected, the message list reset and the
chat view activated; the returned id is the new chat's id.  On a thrown
error `null` is returned with state untouched.  The `finally` clears the
messages-loading flag either way. -/
def handleCreateNewChat (res : Except ApiError Chat) (st : ModalState) :
    Option String × ModalState :=
  match res with
  | .ok newChat =>
    (some newChat.chatId,
     { st with
        chats := newChat :: st.chats.filter (fun c => c.chatId != newChat.chatId),
        currentChatId := some newChat.chatId,
        messages := [],
        isNewChat := true,
        activeView := "chat",
        loadingMessages := false })
  | .error _ => (none, { st with loadingMessages := false })

/-- The optimistic user message built by `handleSendMessage`:
`Date.now().toString()` as id, the text, role `user`, an ISO timestamp and
message type `text`. -/
def mkUserMessage (text : String) (nowMs : Nat) (tstamp : String) : ChatMessage :=
  { id := toString nowMs
    content := text
    role := "user"
    timestamp := tstamp
    message_type := "text" }

/-- AIModal.jsx `handleSendMessage`: when no chat id is selected (null or
falsy), first awaits `handleCreateNewChat` (whose settled result is
`createRes`) and — per `if (!newChatId) return;` — returns early when the
obtained id is falsy (`null` or the empty string; the non-creating path's
id is truthy by the outer guard).  Then the optimistic user message is
appended and `isNewChat` cleared.  `saveRes` is the settled promise of
`saveMessage(chatId, text)`: on success a truthy resolved value (the
assistant reply) is appended; on a thrown error every message carrying the
optimistic message's id is filtered out. -/
def handleSendMessage (text : String) (nowMs : Nat) (tstamp : String)
    (createRes : Except ApiError Chat)
    (saveRes : Except ApiError (Option ChatMessage))
    (st : ModalState) : ModalState :=
  let step1 : Option String × ModalState :=
    if jsFalsyStr st.currentChatId then handleCreateNewChat createRes st
    else (st.currentChatId, st)
  if jsFalsyStr step1.1 then step1.2
  else
    let st1 := step1.2
    let userMessage := mkUserMessage text nowMs tstamp
    let st2 : ModalState :=
      { st1 with messages := st1.messages ++ [userMessage], isNewChat := false }
    match saveRes with
    | .ok aiResponse =>
      match aiResponse with
      | some reply => { st2 with messages := st2.messages ++ [reply] }
      | none => st2
    | .error _ =>
      { st2 with messages := st2.messages.filter (fun m => m.id != userMessage.id) }

/-- C1: for every stored token whose decoded payload has an `exp` strictly
in the past, `isAuthenticated()` returns false and removes both storage
keys.  The hypothesis `hreal` records that a realisable decode function
fails on the empty-string token (in the client, `atob` of
`"".split('.')[1]` always throws), which rules the falsy-token guard out of
this case. -/
theorem isAuthenticated_expired_clears
    (decode : String → Option JwtPayload) (now : ℚ) (s : Storage)
    (tk : String) (p : JwtPayload) (e : ℚ)
    (hreal : decode "" = none)
    (htk : s.authToken = some tk)
    (hdec : decode tk = some p)
    (hexp : p.exp = some e) (hlt : e < now) :
    (isAuthenticated decode now s).1 = false ∧
    (isAuthenticated decode now s).2.authToken = none ∧
    (isAuthenticated decode now s).2.user = none := by
  have hne : tk ≠ "" := by
    intro h
    rw [h, hreal] at hdec
    exact Option.noConfusion hdec
  simp [isAuthenticated, htk, hne, hdec, expLt, hexp, hlt, clearAuthStorage]

/-- Witness for C1 at a concrete expired token. -/
theorem isAuthenticated_expired_clears_witness :
    (isAuthenticated (fun t => if t = "" then none else some { exp := some 5 }) 10
        ⟨some "tok", some "u"⟩).1 = false ∧
    (isAuthenticated (fun t => if t = "" then none else some { exp := some 5 }) 10
        ⟨some "tok", some "u"⟩).2.authToken = none ∧
    (isAuthenticated (fun t => if t = "" then none else some { exp := some 5 }) 10
        ⟨some "tok", some "u"⟩).2.user = none :=
  isAuthenticated_expired_clears
    (fun t => if t = "" then none else some { exp := some 5 }) 10
    ⟨some "tok", some "u"⟩ "tok" { exp := some 5 } 5
    (by simp) rfl (by simp) rfl (by norm_num)

/-- C2 counterexample: the empty string is a storable token whose payload
segment fails to decode (in the client, `"".split('.')[1]` is `undefined`
and `atob` of it throws — here `decode "" = none` by definition of the
instantiated decode function), yet `isAuthenticated()` hits the initial
falsy-token guard, returns false and leaves both storage keys in place:
the `user` key (and the `authToken` key itself) is not removed. -/
theorem isAuthenticated_empty_token_no_clear :
    (fun _ : String => (none : Option JwtPayload)) "" = none ∧
    (isAuthenticated (fun _ => none) 1000 ⟨some "", some "u"⟩).1 = false ∧
    (isAuthenticated (fun _ => none) 1000 ⟨some "", some "u"⟩).2 = ⟨some "", some "u"⟩ :=
  ⟨rfl, rfl, rfl⟩

/-- C2 amended: for every stored token whose payload fails to decode,
`isAuthenticated()` returns false; when the token is non-empty it also
removes both storage keys, while the stored empty-string token (whose
payload also fails to decode) is caught by the falsy-token guard and
storage is left untouched. -/
theorem isAuthenticated_decode_failure_clears
    (decode : String → Option JwtPayload) (now : ℚ) (s : Storage) (tk : String)
    (htk : s.authToken = some tk) (hdec : decode tk = none) :
    (isAuthenticated decode now s).1 = false ∧
    (tk ≠ "" → (isAuthenticated decode now s).2.authToken = none ∧
               (isAuthenticated decode now s).2.user = none) ∧
    (tk = "" → (isAuthenticated decode now s).2 = s) := by
  by_cases hne : tk = ""
  · simp [isAuthenticated, htk, hne]
  · simp [isAuthenticated, htk, hne, hdec, clearAuthStorage]

/-- Witness for the amended C2 at a concrete undecodable token. -/
theorem isAuthenticated_decode_failure_clears_witness :
    (isAuthenticated (fun _ => none) 7 ⟨some "garbage", some "u"⟩).1 = false ∧
    ("garbage" ≠ "" →
      (isAuthenticated (fun _ => none) 7 ⟨some "garbage", some "u"⟩).2.authToken = none ∧
      (isAuthenticated (fun _ => none) 7 ⟨some "garbage", some "u"⟩).2.user = none) ∧
    ("garbage" = "" →
      (isAuthenticated (fun _ => none) 7 ⟨some "garbage", some "u"⟩).2 =
        ⟨some "garbage", some "u"⟩) :=
  isAuthenticated_decode_failure_clears (fun _ => none) 7 ⟨some "garbage", some "u"⟩
    "garbage" rfl rfl

/-- C9: a stored token whose payload decodes but lacks an `exp` claim, or
whose `exp` is not strictly below the current time (including equality), is
accepted: `isAuthenticated()` returns true and storage is unchanged. -/
theorem isAuthenticated_no_exp_accepts
    (decode : String → Option JwtPayload) (now : ℚ) (s : Storage)
    (tk : String) (p : JwtPayload)
    (hreal : decode "" = none)
    (htk : s.authToken = some tk)
    (hdec : decode tk = some p)
    (hexp : p.exp = none ∨ ∃ e, p.exp = some e ∧ ¬ e < now) :
    isAuthenticated decode now s = (true, s) := by
  have hne : tk ≠ "" := by
    intro h
    rw [h, hreal] at hdec
    exact Option.noConfusion hdec
  rcases hexp with h | ⟨e, he, hnlt⟩
  · simp [isAuthenticated, htk, hne, hdec, expLt, h]
  · simp [isAuthenticated, htk, hne, hdec, expLt, he, hnlt]

/-- Witness for C9: a payload with no `exp` claim at all, and one whose
`exp` equals the current time, are both accepted. -/
theorem isAuthenticated_no_exp_accepts_witness :
    isAuthenticated (fun t => if t = "" then none else some { exp := none }) 10
        ⟨some "tok", some "u"⟩ = (true, ⟨some "tok", some "u"⟩) ∧
    isAuthenticated (fun t => if t = "" then none else some { exp := some 10 }) 10
        ⟨some "tok", some "u"⟩ = (true, ⟨some "tok", some "u"⟩) :=
  ⟨isAuthenticated_no_exp_accepts (fun t => if t = "" then none else some { exp := none })
      10 ⟨some "tok", some "u"⟩ "tok" { exp := none } (by simp) rfl (by simp) (Or.inl rfl),
   isAuthenticated_no_exp_accepts (fun t => if t = "" then none else some { exp := some 10 })
      10 ⟨some "tok", some "u"⟩ "tok" { exp := some 10 } (by simp) rfl (by simp)
      (Or.inr ⟨10, rfl, by norm_num⟩)⟩

/-- C10: when `getUserProfile` receives a non-ok response whose status is
not 401, it fails with the generic `Failed to fetch profile` error and
storage is completely unchanged (clearing happens only on the 401 branch).
The hypothesis `hne` mirrors the source's `if (!token)` guard: a response
is only ever received when the stored token is truthy (non-empty), since a
falsy token throws `No authentication token` before any request. -/
theorem getUserProfile_non401_keeps_storage
    (t : Nat) (r : HttpResponse UserObj) (s : Storage) (tk : String)
    (htk : s.authToken = some tk) (hne : tk ≠ "")
    (hok : r.ok = false) (hst : r.status ≠ 401) :
    getUserProfile (.arrives t r) s = (some (.error "Failed to fetch profile"), s) := by
  simp [getUserProfile, fetchPlain, htk, hne, hok, hst]

/-- Witness for C10 at a concrete 500 response. -/
theorem getUserProfile_non401_keeps_storage_witness :
    getUserProfile (.arrives 3 ⟨false, 500, ("prof" : UserObj)⟩) ⟨some "tok", some "u"⟩ =
      (some (.error "Failed to fetch profile"), ⟨some "tok", some "u"⟩) :=
  getUserProfile_non401_keeps_storage 3 ⟨false, 500, ("prof" : UserObj)⟩
    ⟨some "tok", some "u"⟩ "tok" rfl (by decide) rfl (by decide)

/-- C8: after a `registerUser` call whose successful response contains a
token (a truthy string, per the source's `if (data.token)` guard), reading
the token back through `getAuthToken` yields exactly that token. -/
theorem registerUser_token_roundtrip
    (t : Nat) (r : HttpResponse AuthBody) (s : Storage) (tok : String)
    (hok : r.ok = true) (htok : r.body.token = some tok) (hne : tok ≠ "") :
    getAuthToken (registerUser (.arrives t r) s).2 = some tok := by
  simp [registerUser, fetchPlain, getAuthToken, hok, htok, hne]

/-- Witness for C8 at a concrete registration response. -/
theorem registerUser_token_roundtrip_witness :
    getAuthToken (registerUser
      (.arrives 2 ⟨true, 200, { error := none, token := some "jwt123", userJson := "uj" }⟩)
      ⟨none, none⟩).2 = some "jwt123" :=
  registerUser_token_roundtrip 2
    ⟨true, 200, { error := none, token := some "jwt123", userJson := "uj" }⟩
    ⟨none, none⟩ "jwt123" rfl rfl (by decide)

/-- C3: when `initializeAuth` starts from a stored non-expired token and a
stored (parsable) user, and the profile-verification request fails for any
reason — a network rejection or any non-ok HTTP response, 401 included —
it ends unauthenticated: the React user is null, loading is finished, and
both storage keys are cleared. -/
theorem initializeAuth_fail_closed
    (decode : String → Option JwtPayload) (parseUser : String → Option UserObj)
    (now : ℚ) (b : NetBehavior UserObj) (s : Storage) (st : AuthState)
    (tk ustr : String) (p : JwtPayload) (u : UserObj)
    (hreal : decode "" = none)
    (htk : s.authToken = some tk) (hdec : decode tk = some p)
    (hexp : expLt p.exp now = false)
    (hu : s.user = some ustr) (hune : ustr ≠ "") (hp : parseUser ustr = some u)
    (hfail : (∃ t msg, b = .failsAt t msg) ∨ ∃ t r, b = .arrives t r ∧ r.ok = false) :
    (initializeAuth decode parseUser now b s st).1.authToken = none ∧
    (initializeAuth decode parseUser now b s st).1.user = none ∧
    (initializeAuth decode parseUser now b s st).2.user = none ∧
    (initializeAuth decode parseUser now b s st).2.loading = false := by
  have hne : tk ≠ "" := by
    intro h
    rw [h, hreal] at hdec
    exact Option.noConfusion hdec
  have hauth : isAuthenticated decode now s = (true, s) := by
    simp [isAuthenticated, htk, hne, hdec, hexp]
  have hgp : ∃ msg s2, getUserProfile b s = (some (.error msg), s2) := by
    rcases hfail with ⟨t, msg, rfl⟩ | ⟨t, r, rfl, hok⟩
    · exact ⟨msg, s, by simp [getUserProfile, fetchPlain, htk, hne]⟩
    · by_cases hst : r.status = 401
      · exact ⟨"Session expired", clearAuthStorage s,
          by simp [getUserProfile, fetchPlain, htk, hne, hok, hst]⟩
      · exact ⟨"Failed to fetch profile", s,
          by simp [getUserProfile, fetchPlain, htk, hne, hok, hst]⟩
  obtain ⟨msg, s2, hgp⟩ := hgp
  simp [initializeAuth, hauth, getStoredUser, hu, hune, hp, hgp, logoutUser]

/-- Witness for C3: a valid stored session whose verification request is
rejected by the network. -/
theorem initializeAuth_fail_closed_witness :
    (initializeAuth (fun t => if t = "" then none else some { exp := some 50 })
        (fun x => some x) 3 (.failsAt 1 "network down")
        ⟨some "tok", some "uj"⟩ ⟨none, true⟩).1.authToken = none ∧
    (initializeAuth (fun t => if t = "" then none else some { exp := some 50 })
        (fun x => some x) 3 (.failsAt 1 "network down")
        ⟨some "tok", some "uj"⟩ ⟨none, true⟩).1.user = none ∧
    (initializeAuth (fun t => if t = "" then none else some { exp := some 50 })
        (fun x => some x) 3 (.failsAt 1 "network down")
        ⟨some "tok", some "uj"⟩ ⟨none, true⟩).2.user = none ∧
    (initializeAuth (fun t => if t = "" then none else some { exp := some 50 })
        (fun x => some x) 3 (.failsAt 1 "network down")
        ⟨some "tok", some "uj"⟩ ⟨none, true⟩).2.loading = false :=
  initializeAuth_fail_closed (fun t => if t = "" then none else some { exp := some 50 })
    (fun x => some x) 3 (.failsAt 1 "network down")
    ⟨some "tok", some "uj"⟩ ⟨none, true⟩ "tok" "uj" { exp := some 50 } ("uj" : UserObj)
    (by simp) rfl (by simp) (by norm_num [expLt]) rfl (by decide) rfl
    (Or.inl ⟨1, "network down", rfl⟩)

/-- The StoredCredential consistency predicate of C7: the `authToken` and
`user` keys are either both present or both absent. -/
def consistentStorage (s : Storage) : Bool :=
  s.authToken.isSome == s.user.isSome

/-- C7: no operation of the auth layer partially updates the
StoredCredential pair.  Starting from consistent storage, `registerUser`
and `loginUser` (which write both keys together or neither), `logoutUser`
(which removes both), `isAuthenticated` (which removes both on expiry or
decode failure) and `getUserProfile` (which removes both on 401) all leave
the storage consistent, for every network behaviour, decode function and
clock. -/
theorem storedCredential_atomic (s : Storage) (h : consistentStorage s = true) :
    (∀ b, consistentStorage (registerUser b s).2 = true) ∧
    (∀ b, consistentStorage (loginUser b s).2 = true) ∧
    consistentStorage (logoutUser s) = true ∧
    (∀ decode now, consistentStorage (isAuthenticated decode now s).2 = true) ∧
    (∀ b, consistentStorage (getUserProfile b s).2 = true) := by
  refine ⟨?_, ?_, rfl, ?_, ?_⟩
  · intro b
    cases b with
    | hangs => simpa [registerUser, fetchPlain] using h
    | failsAt t msg => simpa [registerUser, fetchPlain] using h
    | arrives t r =>
      rcases r with ⟨ok, status, body⟩
      cases ok with
      | false => simpa [registerUser, fetchPlain] using h
      | true =>
        rcases body with ⟨err, tok, uj⟩
        cases tok with
        | none => simpa [registerUser, fetchPlain] using h
        | some tokv =>
          by_cases ht : tokv = ""
          · simpa [registerUser, fetchPlain, ht] using h
          · simp [registerUser, fetchPlain, ht, consistentStorage]
  · intro b
    cases b with
    | hangs => simpa [loginUser, fetchPlain] using h
    | failsAt t msg => simpa [loginUser, fetchPlain] using h
    | arrives t r =>
      rcases r with ⟨ok, status, body⟩
      cases ok with
      | false => simpa [loginUser, fetchPlain] using h
      | true =>
        rcases body with ⟨err, tok, uj⟩
        cases tok with
        | none => simpa [loginUser, fetchPlain] using h
        | some tokv =>
          by_cases ht : tokv = ""
          · simpa [loginUser, fetchPlain, ht] using h
          · simp [loginUser, fetchPlain, ht, consistentStorage]
  · intro decode now
    rcases hs : s.authToken with _ | tk
    · simpa [isAuthenticated, hs] using h
    · by_cases hne : tk = ""
      · simpa [isAuthenticated, hs, hne] using h
      · rcases hd : decode tk with _ | payload
        · simp [isAuthenticated, hs, hne, hd, clearAuthStorage, consistentStorage]
        · by_cases he : expLt payload.exp now
          · simp [isAuthenticated, hs, hne, hd, he, clearAuthStorage, consistentStorage]
          · simpa [isAuthenticated, hs, hne, hd, he] using h
  · intro b
    rcases hs : s.authToken with _ | tk
    · simpa [getUserProfile, hs] using h
    · by_cases hne : tk = ""
      · simpa [getUserProfile, hs, hne] using h
      · cases b with
        | hangs => simpa [getUserProfile, fetchPlain, hs, hne] using h
        | failsAt t msg => simpa [getUserProfile, fetchPlain, hs, hne] using h
        | arrives t r =>
          rcases r with ⟨ok, status, body⟩
          cases ok with
          | true => simpa [getUserProfile, fetchPlain, hs, hne] using h
          | false =>
            by_cases hst : status = 401
            · simp [getUserProfile, fetchPlain, hs, hne, hst, clearAuthStorage,
                consistentStorage]
            · simpa [getUserProfile, fetchPlain, hs, hne, hst] using h

/-- Witness for C7 at a concrete consistent storage and a concrete
operation from each group. -/
theorem storedCredential_atomic_witness :
    consistentStorage ⟨some "t", some "u"⟩ = true ∧
    consistentStorage (logoutUser ⟨some "t", some "u"⟩) = true ∧
    consistentStorage
      (registerUser (.arrives 1
        ⟨true, 200, { error := none, token := some "jwt", userJson := "uj" }⟩)
        ⟨some "t", some "u"⟩).2 = true :=
  ⟨rfl, (storedCredential_atomic ⟨some "t", some "u"⟩ rfl).2.2.1,
    (storedCredential_atomic ⟨some "t", some "u"⟩ rfl).1
      (.arrives 1 ⟨true, 200, { error := none, token := some "jwt", userJson := "uj" }⟩)⟩

/-- C4: sending a text message with no chat selected first creates a chat
(which becomes current and heads the chat list with an emptied message
list), then appends the optimistic user message; when `saveMessage`
resolves with the assistant reply, exactly that one reply is appended after
the user message; when it throws, the optimistic user message (identified
by its client-generated id) is removed and no reply is appended.  The
hypothesis `hcid` mirrors the source's `if (!newChatId) return;` guard: the
created chat's id must be truthy (non-empty) for the send to proceed at
all. -/
theorem handleSendMessage_no_chat
    (text : String) (nowMs : Nat) (tstamp : String) (c : Chat)
    (saveRes : Except ApiError (Option ChatMessage)) (st : ModalState)
    (hno : st.currentChatId = none) (hcid : c.chatId ≠ "") :
    (handleSendMessage text nowMs tstamp (.ok c) saveRes st).currentChatId = some c.chatId ∧
    (handleSendMessage text nowMs tstamp (.ok c) saveRes st).chats.head? = some c ∧
    (∀ reply, saveRes = .ok (some reply) →
      (handleSendMessage text nowMs tstamp (.ok c) saveRes st).messages =
        [mkUserMessage text nowMs tstamp, reply]) ∧
    (∀ e, saveRes = .error e →
      (handleSendMessage text nowMs tstamp (.ok c) saveRes st).messages = []) := by
  cases saveRes with
  | ok o =>
    cases o with
    | some reply =>
      simp [handleSendMessage, handleCreateNewChat, jsFalsyStr, hno, hcid, mkUserMessage]
    | none =>
      simp [handleSendMessage, handleCreateNewChat, jsFalsyStr, hno, hcid]
  | error e =>
    simp [handleSendMessage, handleCreateNewChat, jsFalsyStr, hno, hcid, mkUserMessage,
      List.filter]

/-- Witness for C4: sending `Hello` from an empty modal with a successful
assistant reply. -/
theorem handleSendMessage_no_chat_witness :
    (handleSendMessage "Hello" 1700000000000 "2026-01-01T00:00:00.000Z" (.ok ⟨"c1", "New Chat"⟩)
        (.ok (some ⟨"m2", "Hi!", "assistant", "2026-01-01T00:00:01.000Z", "text"⟩))
        ⟨"chat", [], none, [], true, false⟩).currentChatId = some (Chat.chatId ⟨"c1", "New Chat"⟩) ∧
    (handleSendMessage "Hello" 1700000000000 "2026-01-01T00:00:00.000Z" (.ok ⟨"c1", "New Chat"⟩)
        (.ok (some ⟨"m2", "Hi!", "assistant", "2026-01-01T00:00:01.000Z", "text"⟩))
        ⟨"chat", [], none, [], true, false⟩).chats.head? = some ⟨"c1", "New Chat"⟩ ∧
    (∀ reply, (Except.ok (some (⟨"m2", "Hi!", "assistant", "2026-01-01T00:00:01.000Z", "text"⟩ : ChatMessage)) :
          Except ApiError (Option ChatMessage)) = .ok (some reply) →
      (handleSendMessage "Hello" 1700000000000 "2026-01-01T00:00:00.000Z" (.ok ⟨"c1", "New Chat"⟩)
        (.ok (some ⟨"m2", "Hi!", "assistant", "2026-01-01T00:00:01.000Z", "text"⟩))
        ⟨"chat", [], none, [], true, false⟩).messages =
        [mkUserMessage "Hello" 1700000000000 "2026-01-01T00:00:00.000Z", reply]) ∧
    (∀ e, (Except.ok (some (⟨"m2", "Hi!", "assistant", "2026-01-01T00:00:01.000Z", "text"⟩ : ChatMessage)) :
          Except ApiError (Option ChatMessage)) = .error e →
      (handleSendMessage "Hello" 1700000000000 "2026-01-01T00:00:00.000Z" (.ok ⟨"c1", "New Chat"⟩)
        (.ok (some ⟨"m2", "Hi!", "assistant", "2026-01-01T00:00:01.000Z", "text"⟩))
        ⟨"chat", [], none, [], true, false⟩).messages = []) :=
  handleSendMessage_no_chat "Hello" 1700000000000 "2026-01-01T00:00:00.000Z"
    ⟨"c1", "New Chat"⟩
    (.ok (some ⟨"m2", "Hi!", "assistant", "2026-01-01T00:00:01.000Z", "text"⟩))
    ⟨"chat", [], none, [], true, false⟩ rfl (by decide)

/-- Helper for C5: any request behaviour not settled within the window
makes `getNewsFeed` surface the timeout error. -/
theorem getNewsFeed_timeout_aux {α : Type} (b : NetBehavior α)
    (h : resolvesWithin b 35000 = false) :
    getNewsFeed b = .error .requestTimedOut := by
  cases b with
  | arrives t r =>
    simp only [resolvesWithin, decide_eq_false_iff_not] at h
    simp [getNewsFeed, fetchWithTimeout, h]
  | failsAt t msg =>
    simp only [resolvesWithin, decide_eq_false_iff_not] at h
    simp [getNewsFeed, fetchWithTimeout, h]
  | hangs => rfl

/-- C5: a news-feed request that does not settle within 35000 ms surfaces
the distinct `RequestTimedOut` error (never the generic `RequestFailed`),
and after the abort the outcome is independent of anything the request
would have delivered: every behaviour that misses the window produces the
very same result. -/
theorem getNewsFeed_timeout {α : Type} (b : NetBehavior α)
    (h : resolvesWithin b 35000 = false) :
    getNewsFeed b = .error .requestTimedOut ∧
    (∀ msg, getNewsFeed b ≠ .error (.requestFailed msg)) ∧
    (∀ b' : NetBehavior α, resolvesWithin b' 35000 = false →
      getNewsFeed b' = getNewsFeed b) := by
  refine ⟨getNewsFeed_timeout_aux b h, ?_, ?_⟩
  · intro msg hmsg
    rw [getNewsFeed_timeout_aux b h] at hmsg
    exact ApiError.noConfusion (Except.error.inj hmsg)
  · intro b' h'
    rw [getNewsFeed_timeout_aux b h, getNewsFeed_timeout_aux b' h']

/-- Witness for C5: a feed response that would only arrive after 35001 ms
and one that never arrives. -/
theorem getNewsFeed_timeout_witness :
    getNewsFeed (.arrives 35001 ⟨true, 200, (0 : Nat)⟩) = .error .requestTimedOut ∧
    (∀ msg, getNewsFeed (.arrives 35001 ⟨true, 200, (0 : Nat)⟩) ≠
      .error (.requestFailed msg)) ∧
    (∀ b' : NetBehavior Nat, resolvesWithin b' 35000 = false →
      getNewsFeed b' = getNewsFeed (.arrives 35001 ⟨true, 200, (0 : Nat)⟩)) :=
  getNewsFeed_timeout (.arrives 35001 ⟨true, 200, (0 : Nat)⟩) (by decide)

/-- Helper: `getUserPreferences` times out exactly when the request misses
the default 30000 ms window. -/
theorem getUserPreferences_timeout_iff {α : Type} (b : NetBehavior α) :
    (getUserPreferences b = .error .requestTimedOut) ↔ resolvesWithin b 30000 = false := by
  cases b with
  | arrives t r =>
    by_cases h : t ≤ 30000
    · cases hok : r.ok <;>
        simp [getUserPreferences, fetchWithTimeout, resolvesWithin, h, hok]
    · simp [getUserPreferences, fetchWithTimeout, resolvesWithin, h]
  | failsAt t m =>
    by_cases h : t ≤ 30000 <;>
      simp [getUserPreferences, fetchWithTimeout, resolvesWithin, h]
  | hangs => simp [getUserPreferences, fetchWithTimeout, resolvesWithin]

/-- Helper: `updateUserPreferences` times out exactly when the request
misses the default 30000 ms window. -/
theorem updateUserPreferences_timeout_iff {α : Type} (pr : String) (b : NetBehavior α) :
    (updateUserPreferences pr b = .error .requestTimedOut) ↔
      resolvesWithin b 30000 = false := by
  cases b with
  | arrives t r =>
    by_cases h : t ≤ 30000
    · cases hok : r.ok <;>
        simp [updateUserPreferences, fetchWithTimeout, resolvesWithin, h, hok]
    · simp [updateUserPreferences, fetchWithTimeout, resolvesWithin, h]
  | failsAt t m =>
    by_cases h : t ≤ 30000 <;>
      simp [updateUserPreferences, fetchWithTimeout, resolvesWithin, h]
  | hangs => simp [updateUserPreferences, fetchWithTimeout, resolvesWithin]

/-- Helper: `addMonitoringTopic` times out exactly when the request misses
the default 30000 ms window. -/
theorem addMonitoringTopic_timeout_iff {α : Type} (tp : String) (b : NetBehavior α) :
    (addMonitoringTopic tp b = .error .requestTimedOut) ↔
      resolvesWithin b 30000 = false := by
  cases b with
  | arrives t r =>
    by_cases h : t ≤ 30000
    · cases hok : r.ok <;>
        simp [addMonitoringTopic, fetchWithTimeout, resolvesWithin, h, hok]
    · simp [addMonitoringTopic, fetchWithTimeout, resolvesWithin, h]
  | failsAt t m =>
    by_cases h : t ≤ 30000 <;>
      simp [addMonitoringTopic, fetchWithTimeout, resolvesWithin, h]
  | hangs => simp [addMonitoringTopic, fetchWithTimeout, resolvesWithin]

/-- Helper: `removeMonitoringTopic` times out exactly when the request
misses the default 30000 ms window. -/
theorem removeMonitoringTopic_timeout_iff {α : Type} (tp : String) (b : NetBehavior α) :
    (removeMonitoringTopic tp b = .error .requestTimedOut) ↔
      resolvesWithin b 30000 = false := by
  cases b with
  | arrives t r =>
    by_cases h : t ≤ 30000
    · cases hok : r.ok <;>
        simp [removeMonitoringTopic, fetchWithTimeout, resolvesWithin, h, hok]
    · simp [removeMonitoringTopic, fetchWithTimeout, resolvesWithin, h]
  | failsAt t m =>
    by_cases h : t ≤ 30000 <;>
      simp [removeMonitoringTopic, fetchWithTimeout, resolvesWithin, h]
  | hangs => simp [removeMonitoringTopic, fetchWithTimeout, resolvesWithin]

/-- C6 counterexample: `getUserPreferences` — one of the operations the
claim says is never aborted by a client-side timer — goes through
`fetchWithTimeout` with its default 30000 ms timeout: a preferences
response arriving after 30001 ms is aborted and surfaces the timeout
error. -/
theorem getUserPreferences_aborted_by_timer :
    getUserPreferences (.arrives 30001 ⟨true, 200, (0 : Nat)⟩) =
      .error ApiError.requestTimedOut := by
  rfl

/-- C6 amended: only the chat operations (`createNewChat`, `getAllChats`,
`getChatById`, `saveMessage`, `getAIMemory`) and the auth operations use
plain `fetch` with no client-side timer — they never surface the timeout
error, a hanging request leaves them suspended rather than aborted, and
their outcome is independent of the arrival time.  The preferences and
monitoring-topic operations, by contrast, run through `fetchWithTimeout`
with its default 30000 ms timeout and are aborted by the client-side timer
exactly when no response settles within 30 s; the news operations keep
their explicit 35 s window. -/
theorem clientTimeout_scope {α : Type} (b : NetBehavior α) (s : Storage)
    (pr tp cid msg : String) :
    ((getUserPreferences b = .error .requestTimedOut) ↔ resolvesWithin b 30000 = false) ∧
    ((updateUserPreferences pr b = .error .requestTimedOut) ↔
      resolvesWithin b 30000 = false) ∧
    ((addMonitoringTopic tp b = .error .requestTimedOut) ↔
      resolvesWithin b 30000 = false) ∧
    ((removeMonitoringTopic tp b = .error .requestTimedOut) ↔
      resolvesWithin b 30000 = false) ∧
    getAIMemory b ≠ some (.error ApiError.requestTimedOut) ∧
    createNewChat tp b ≠ some (.error ApiError.requestTimedOut) ∧
    getAllChats b ≠ some (.error ApiError.requestTimedOut) ∧
    getChatById cid b ≠ some (.error ApiError.requestTimedOut) ∧
    saveMessage cid msg b ≠ some (.error ApiError.requestTimedOut) ∧
    getAIMemory (NetBehavior.hangs (α := α)) = none ∧
    getAllChats (NetBehavior.hangs (α := α)) = none ∧
    (registerUser NetBehavior.hangs s).1 = none ∧
    (loginUser NetBehavior.hangs s).1 = none ∧
    (∀ t t' (r : HttpResponse AuthBody),
      registerUser (.arrives t r) s = registerUser (.arrives t' r) s) ∧
    (∀ t t' (r : HttpResponse UserObj),
      getUserProfile (.arrives t r) s = getUserProfile (.arrives t' r) s) := by
  refine ⟨getUserPreferences_timeout_iff b, updateUserPreferences_timeout_iff pr b,
    addMonitoringTopic_timeout_iff tp b, removeMonitoringTopic_timeout_iff tp b,
    ?_, ?_, ?_, ?_, ?_, rfl, rfl, rfl, rfl, fun t t' r => rfl, fun t t' r => rfl⟩
  all_goals
    cases b with
    | arrives t r =>
      cases hok : r.ok <;>
        simp [getAIMemory, createNewChat, getAllChats, getChatById, saveMessage,
          fetchPlain, hok]
    | failsAt t m =>
      simp [getAIMemory, createNewChat, getAllChats, getChatById, saveMessage, fetchPlain]
    | hangs =>
      simp [getAIMemory, createNewChat, getAllChats, getChatById, saveMessage, fetchPlain]
